import Mathlib

/-!
Shallow embedding of the unit-conversion and tagged-CSV-loading utilities of
`idaes/core/util/data.py`, and of the Henry's-law class `ConstantH` of
`idaes/generic_models/properties/core/phase_equil/henry.py`.

External collaborators are modelled abstractly, exactly at the interface the
source code uses:
* the pint unit library is a `UnitRegistry` record (one per optional unit
  system, as `pint.UnitRegistry(system=system)` builds one per call) giving
  whether a unit string parses, conversion to base units, conversion to a
  target unit, and the quantity addition `y + atm * parse_expression "atm"`
  used for gauge pressures;
* a pandas data frame is its list of columns (tag, values), the row index
  playing no role in the code under study;
* the metadata csv file is its list of parsed lines (first four fields);
* the pyomo model together with `eval` + `pyo.Reference` is a partial
  function from reference strings to references (`none` = the catch-all
  `except` path of the source);
* warnings are modelled by companion definitions mirroring exactly the
  source's `warnings.warn` call sites, since the source reports them on a
  side channel.

Values carried through conversions are rationals (scalars) or lists of
rationals (columns); `unit_convert` is generic over the carried type, as the
source works for scalars and series alike.
-/

/-- Embedding of `str.strip`: drop whitespace characters from both ends of
a string, working over the character list so that every evaluation is by
structural recursion. -/
def pyStrip (s : String) : String :=
  ⟨(((s.data.dropWhile Char.isWhitespace).reverse.dropWhile
      Char.isWhitespace).reverse)⟩

/-- Embedding of `_strip` (data.py line 29): tag renaming function removing
surrounding whitespace, `str.strip`. -/
def _strip (tag : String) : String := pyStrip tag

/-- Embedding of the alias dictionary `_unit_strings` (data.py lines 41-121),
in source order.  Python dict membership/indexing on string keys is
`List.lookup` on this association list (all keys are distinct). -/
def _unit_strings : List (String × String) := [
  ("PSI", "psi"), ("PSIA", "psi"), ("psia", "psi"),
  ("PSIG", "psig"),
  ("INWC", "in water"), ("IN WC", "in water"), ("IN/WC", "in water"),
  ("\" H2O", "in water"),
  ("INHG", "in hg"), ("IN HG", "in hg"), ("IN/HG", "in hg"), ("HGA", "in hg"),
  ("IN HGA", "in hg"),
  ("PCT", "percent"), ("pct", "percent"), ("PERCT", "percent"),
  ("PERCT.", "percent"), ("PCNT", "percent"),
  ("PPM", "ppm"), ("PPB", "ppb"),
  ("% OPEN", "percent open"),
  ("% CLSD", "percent closed"), ("% CLOSED", "percent closed"),
  ("IN", "in"), ("INS", "in"), ("INCHES", "in"), ("Inches", "in"),
  ("FT", "ft"), ("FEET", "ft"), ("FOOT", "ft"), ("Feet", "ft"),
  ("MILS", "minch"),
  ("MPH", "mile/hr"),
  ("IPS", "in/s"),
  ("KGAL", "kgal"),
  ("GPM", "gal/min"), ("gpm", "gal/min"),
  ("CFM", "ft^3/min"), ("KCFM", "ft^3/mmin"),
  ("SCFM", "ft^3/min"), ("KSCFM", "ft^3/mmin"),
  ("DEG", "deg"),
  ("RPM", "rpm"),
  ("HZ", "hz"),
  ("DEG F", "degF"), ("Deg F", "degF"), ("deg F", "degF"),
  ("DEG C", "degC"), ("Deg C", "degC"), ("deg C", "degC"),
  ("DEGF", "degF"), ("DegF", "degF"),
  ("DEGC", "degC"), ("DegC", "degC"),
  ("DELTA DEG F", "delta_degF"), ("DETLA Deg F", "delta_degF"),
  ("DETLA deg F", "delta_degF"), ("DETLA DEG C", "delta_degC"),
  ("DETLA Deg C", "delta_degC"), ("DELTA deg C", "delta_degC"),
  ("DELTA DEGF", "delta_degF"), ("DELTA DegF", "delta_degF"),
  ("DELTA degF", "delta_degF"), ("DELTA DEGC", "delta_degC"),
  ("DELTA DegC", "delta_degC"), ("DELTA degC", "delta_degC"),
  ("Delta DEG F", "delta_degF"), ("Delta Deg F", "delta_degF"),
  ("Delta deg F", "delta_degF"), ("Delta DEG C", "delta_degC"),
  ("Delta Deg C", "delta_degC"), ("Delta deg C", "delta_degC"),
  ("Delta DEGF", "delta_degF"), ("Delta DegF", "delta_degF"),
  ("Delta degF", "delta_degF"), ("Delta DEGC", "delta_degC"),
  ("Delta DegC", "delta_degC"), ("Delta degC", "delta_degC"),
  ("delta DEG F", "delta_degF"), ("delta Deg F", "delta_degF"),
  ("delta deg F", "delta_degF"), ("delta DEG C", "delta_degC"),
  ("delta Deg C", "delta_degC"), ("delta deg C", "delta_degC"),
  ("delta DEGF", "delta_degF"), ("delta DegF", "delta_degF"),
  ("delta degF", "delta_degF"), ("delta DEGC", "delta_degC"),
  ("delta DegC", "delta_degC"), ("delta degC", "delta_degC"),
  ("MBTU", "kbtu"),
  ("MLB", "klb"),
  ("K LB", "klb"),
  ("K LBS", "klb"),
  ("lb.", "lb"),
  ("TPH", "ton/hr"),
  ("tph", "ton/hr"),
  ("KLB/HR", "klb/hr"),
  ("KPPH", "klb/hr"),
  ("AMP", "amp"), ("AMPS", "amp"), ("Amps", "amp"), ("Amp", "amp"),
  ("AMP AC", "amp"),
  ("PH", "pH"),
  ("VARS", "VAR"),
  ("MVARS", "MVAR")]

/-- Embedding of `_guage_pressures` (data.py lines 123-125). -/
def _guage_pressures : List (String × String) := [("psig", "psi")]

/-- Embedding of `_ignore_units` (data.py lines 127-137). -/
def _ignore_units : List String := [
  "percent", "ppm", "ppb", "pH", "VAR", "MVAR", "H2O",
  "percent open", "percent closed"]

/-- Abstract model of a `pint.UnitRegistry` at the interface `unit_convert`
uses.  `defined u` holds when `ureg.parse_expression u` succeeds;
`to_base_units u x` is the magnitude and unit string of
`Quantity(x, u).to_base_units()`; `convert_to u t x` the same for
`Quantity(x, u).to t`; `add_atm u a y` is the magnitude of
`y + a * parse_expression "atm"` when `y` has magnitude `y` and units `u`
(pint keeps the left operand's units on addition). -/
structure UnitRegistry (α : Type) where
  defined : String → Bool
  to_base_units : String → α → α × String
  convert_to : String → String → α → α × String
  add_atm : String → ℚ → α → α

/-- Embedding of data.py lines 165-168: resolve the from-unit string through
the caller-supplied `unit_string_map`, else the built-in `_unit_strings`,
else leave it unchanged. -/
def resolve_unit_string (unit_string_map : List (String × String))
    (frm : String) : String :=
  match unit_string_map.lookup frm with
  | some s => s
  | none =>
    match _unit_strings.lookup frm with
    | some s => s
    | none => frm

/-- Embedding of data.py lines 170-176: detect a gauge-pressure unit through
the caller-supplied `guage_pressures`, else the built-in `_guage_pressures`,
substituting the corresponding absolute-pressure unit. -/
def resolve_guage (guage_pressures : List (String × String))
    (frm : String) : Bool × String :=
  match guage_pressures.lookup frm with
  | some a => (true, a)
  | none =>
    match _guage_pressures.lookup frm with
    | some a => (true, a)
    | none => (false, frm)

/-- Embedding of data.py lines 169-194, the part of `unit_convert` after the
alias resolution: gauge detection, the ignore-list early return, the
`parse_expression` check (whose failure warns and returns the input with the
resolved label), the conversion to the target unit or to base units, and the
gauge-pressure atmospheric offset. -/
def unit_convert_core {α : Type} (ureg : UnitRegistry α) (x : α) (frm : String)
    (to_unit : Option String) (ignore_units : List String)
    (guage_pressures : List (String × String)) (atm : ℚ) : α × String :=
  let g := resolve_guage guage_pressures frm
  if _ignore_units.contains g.2 || ignore_units.contains g.2 then (x, g.2)
  else if !ureg.defined g.2 then
    -- warnings.warn "In unit conversion, from unit is not defined. No conversion."
    (x, g.2)
  else
    let y :=
      match to_unit with
      | none => ureg.to_base_units g.2 x
      | some t => ureg.convert_to g.2 t x
    if g.1 then (ureg.add_atm y.2 atm y.1, y.2) else y

/-- Embedding of `unit_convert` (data.py lines 139-194).  `ureg_of system`
models `pint.UnitRegistry(system=system)`.  Default arguments of the source
(`to=None, system=None, unit_string_map={}, ignore_units=[],
guage_pressures={}, atm=1.0`) are always passed explicitly. -/
def unit_convert {α : Type} (ureg_of : Option String → UnitRegistry α) (x : α)
    (frm : String) (to_unit : Option String) (system : Option String)
    (unit_string_map : List (String × String)) (ignore_units : List String)
    (guage_pressures : List (String × String)) (atm : ℚ) : α × String :=
  unit_convert_core (ureg_of system) x (resolve_unit_string unit_string_map frm)
    to_unit ignore_units guage_pressures atm

/-- Companion of `unit_convert` recording whether the `warnings.warn` call of
data.py lines 184-185 fires: the resolved unit is not ignored and
`parse_expression` fails on it. -/
def unit_convert_warned {α : Type} (ureg_of : Option String → UnitRegistry α)
    (frm : String) (system : Option String)
    (unit_string_map : List (String × String)) (ignore_units : List String)
    (guage_pressures : List (String × String)) : Bool :=
  let g := resolve_guage guage_pressures (resolve_unit_string unit_string_map frm)
  !(_ignore_units.contains g.2 || ignore_units.contains g.2) &&
    !(ureg_of system).defined g.2

/-- One entry of the metadata dict built by `read_data`
(data.py lines 240-244). `reference` is `none` until model resolution binds
it; `ρ` is the abstract type of resolved pyomo references. -/
structure TagMeta (ρ : Type) where
  reference_string : String
  reference : Option ρ
  description : String
  units : String
deriving DecidableEq

/-- One line of the metadata csv file as `csv.reader` yields it: the four
fields data.py lines 237-244 read (`line[0]` .. `line[3]`); any further
fields are ignored by the source. -/
structure MetaLine where
  tag : String
  reference_string : String
  description : String
  units : String
deriving DecidableEq

/-- Python dict assignment `d[k] = v` on an insertion-ordered association
list: overwrite in place when the key exists, else append. -/
def dictInsert {β : Type} (k : String) (v : β) :
    List (String × β) → List (String × β)
  | [] => [(k, v)]
  | p :: rest => if p.1 = k then (k, v) :: rest else p :: dictInsert k v rest

/-- Apply the optional `rename_mapper` of `read_data`. -/
def applyRename (rename_mapper : Option (String → String)) (t : String) :
    String :=
  match rename_mapper with
  | some f => f t
  | none => t

/-- Whether the first character list starts with the second. -/
def charsStart : List Char → List Char → Bool
  | [], _ => true
  | _ :: _, [] => false
  | a :: pats, b :: rest => a == b && charsStart pats rest

/-- Whether the second character list has the first as a contiguous
sublist. -/
def charsHave (pat : List Char) : List Char → Bool
  | [] => pat.isEmpty
  | b :: rest => charsStart pat (b :: rest) || charsHave pat rest

/-- Substring test, for the pandas `df.columns.str.contains "Unnamed"`
filter of data.py line 227. -/
def containsStr (s pat : String) : Bool := charsHave pat.data s.data

/-- Embedding of data.py line 227: drop the columns whose heading contains
"Unnamed". -/
def drop_unnamed (df : List (String × List ℚ)) : List (String × List ℚ) :=
  df.filter (fun c => !containsStr c.1 "Unnamed")

/-- Embedding of data.py line 228: rename every column with `_strip`. -/
def strip_columns (df : List (String × List ℚ)) : List (String × List ℚ) :=
  df.map (fun c => (_strip c.1, c.2))

/-- Embedding of data.py lines 229-231: rename every column with
`rename_mapper` when one is supplied. -/
def rename_columns (rename_mapper : Option (String → String))
    (df : List (String × List ℚ)) : List (String × List ℚ) :=
  match rename_mapper with
  | some _ => df.map (fun c => (applyRename rename_mapper c.1, c.2))
  | none => df

/-- The loop body of data.py lines 236-244 as a recursion over the metadata
file's lines, threading the metadata dict being built. -/
def build_metadata_loop {ρ : Type} (rename_mapper : Option (String → String)) :
    List MetaLine → List (String × TagMeta ρ) → List (String × TagMeta ρ)
  | [], md => md
  | line :: rest, md =>
    build_metadata_loop rename_mapper rest
      (dictInsert (applyRename rename_mapper (pyStrip line.tag))
        { reference_string := pyStrip line.reference_string
          reference := none
          description := pyStrip line.description
          units := pyStrip line.units } md)

/-- Embedding of data.py lines 232-244: build the metadata dict from the
lines of the metadata csv file, stripping each field, renaming the tag with
`rename_mapper` when one is supplied. -/
def build_metadata {ρ : Type} (rename_mapper : Option (String → String))
    (lines : List MetaLine) : List (String × TagMeta ρ) :=
  build_metadata_loop rename_mapper lines []

/-- Embedding of data.py lines 246-254: for every metadata entry with a
non-empty `reference_string`, attempt `pyo.Reference (eval rs)` — modelled by
the abstract resolver `resolve`; on the `except` path (resolver returns
`none`) the reference stays `none` and a warning fires. -/
def map_references {ρ : Type} (resolve : String → Option ρ)
    (md : List (String × TagMeta ρ)) : List (String × TagMeta ρ) :=
  md.map (fun p =>
    (p.1, if p.2.reference_string = "" then p.2
          else { p.2 with reference := resolve p.2.reference_string }))

/-- Companion of `map_references` recording, in order, the reference strings
for which the `warnings.warn` of data.py lines 253-254 fires. -/
def reference_warnings {ρ : Type} (resolve : String → Option ρ) :
    List (String × TagMeta ρ) → List String
  | [] => []
  | p :: rest =>
    if p.2.reference_string = "" then reference_warnings resolve rest
    else
      match resolve p.2.reference_string with
      | some _ => reference_warnings resolve rest
      | none => p.2.reference_string :: reference_warnings resolve rest

/-- Embedding of data.py lines 255-258: drop every data column whose tag has
no metadata entry. -/
def drop_no_metadata {ρ : Type} (md : List (String × TagMeta ρ))
    (df : List (String × List ℚ)) : List (String × List ℚ) :=
  df.filter (fun c => (md.lookup c.1).isSome)

/-- Embedding of data.py lines 262-265: for every remaining column, convert
its values through `unit_convert` with the column's current metadata units
and the requested system, updating values and metadata units in place.  The
`none` branch of the lookup is unreachable after `drop_no_metadata` (the
source would raise a KeyError there); it leaves the column untouched. -/
def convert_columns {ρ : Type} (ureg_of : Option String → UnitRegistry (List ℚ))
    (s : String) :
    List (String × List ℚ) → List (String × TagMeta ρ) →
      List (String × List ℚ) × List (String × TagMeta ρ)
  | [], md => ([], md)
  | c :: rest, md =>
    match md.lookup c.1 with
    | some m =>
      let r := unit_convert ureg_of c.2 m.units none (some s) [] [] [] 1
      let res := convert_columns ureg_of s rest
        (dictInsert c.1 { m with units := r.2 } md)
      ((c.1, r.1) :: res.1, res.2)
    | none =>
      let res := convert_columns ureg_of s rest md
      (c :: res.1, res.2)

/-- Embedding of `read_data` (data.py lines 196-267).  The csv data file is
given as its parsed list of columns, the metadata file as its parsed lines
(`none` models an empty or absent `csv_file_metadata` path, falsy in the
source's `if csv_file_metadata:`), the model as an abstract resolver for
reference strings, and pint as the `ureg_of` registry family passed through
to `unit_convert`. -/
def read_data {ρ : Type} (ureg_of : Option String → UnitRegistry (List ℚ))
    (csv_file : List (String × List ℚ))
    (csv_file_metadata : Option (List MetaLine))
    (model : Option (String → Option ρ))
    (rename_mapper : Option (String → String))
    (unit_system : Option String) :
    List (String × List ℚ) × List (String × TagMeta ρ) :=
  let df := drop_unnamed csv_file
  let df := strip_columns df
  let df := rename_columns rename_mapper df
  let metadata : List (String × TagMeta ρ) :=
    match csv_file_metadata with
    | some lines => build_metadata rename_mapper lines
    | none => []
  let metadata :=
    match model with
    | some resolve => map_references resolve metadata
    | none => metadata
  let df := drop_no_metadata metadata df
  match unit_system with
  | none => (df, metadata)
  | some s => convert_columns ureg_of s df metadata

/-- A pyomo `Var` as `ConstantH.build_parameters` creates one: its
`initialize` value (field `initval`) and its `doc` string. -/
structure PyomoVar (α : Type) where
  initval : α
  doc : String
deriving DecidableEq

/-- The slice of a pyomo component object that henry.py touches: its named
sub-components (`add_component` / `getattr`) and
`cobj.config.parameter_data "henry_ref"` (field `henry_ref`). -/
structure CompObj (α : Type) where
  components : String → Option (PyomoVar α)
  henry_ref : String → α

/-- Model of `cobj.add_component name v`. -/
def add_component {α : Type} (cobj : CompObj α) (name : String)
    (v : PyomoVar α) : CompObj α :=
  { cobj with
    components := fun n => if n = name then some v else cobj.components n }

/-- The slice of a pyomo block that `ConstantH.return_expression` touches:
`b.params.get_component j`. -/
structure Block (α : Type) where
  params_get_component : String → CompObj α

/-- Embedding of `ConstantH.build_parameters` (henry.py lines 23-29): add to
`cobj` a Var named `henry_ref_` ++ p initialized from
`cobj.config.parameter_data["henry_ref"][p]`. -/
def ConstantH.build_parameters {α : Type} (cobj : CompObj α) (p : String) :
    CompObj α :=
  add_component cobj ("henry_ref_" ++ p)
    { initval := cobj.henry_ref p
      doc := "Henry coefficient (mole fraction basis) at reference " ++
        "state for phase " ++ p }

/-- Embedding of `ConstantH.return_expression` (henry.py lines 31-35):
`getattr (b.params.get_component j) ("henry_ref_" ++ p)`; the temperature
argument `T` (default `None`) is unused by the source. -/
def ConstantH.return_expression {α : Type} (b : Block α) (p j : String)
    (T : Option ℚ) : Option (PyomoVar α) :=
  let cobj := b.params_get_component j
  cobj.components ("henry_ref_" ++ p)

/-- The metadata mapping `read_data` returns, as built by data.py lines
232-254 (file parsing then optional model-reference resolution); definitional
refactoring of the corresponding part of `read_data`. -/
def metadata_of {ρ : Type} (csv_file_metadata : Option (List MetaLine))
    (model : Option (String → Option ρ))
    (rename_mapper : Option (String → String)) : List (String × TagMeta ρ) :=
  let metadata : List (String × TagMeta ρ) :=
    match csv_file_metadata with
    | some lines => build_metadata rename_mapper lines
    | none => []
  match model with
  | some resolve => map_references resolve metadata
  | none => metadata

/-- A trivial concrete registry over scalar values, used to instantiate
universally quantified statements: everything parses and conversions keep
magnitudes. -/
def uregConst : Option String → UnitRegistry ℚ :=
  fun _ =>
    { defined := fun _ => true
      to_base_units := fun u x => (x, u)
      convert_to := fun _ t x => (x, t)
      add_atm := fun _ a y => y + a }

/-- A trivial concrete registry over columns of values. -/
def uregConstL : Option String → UnitRegistry (List ℚ) :=
  fun _ =>
    { defined := fun _ => true
      to_base_units := fun u x => (x, u)
      convert_to := fun _ t x => (x, t)
      add_atm := fun _ _ y => y }

/-- A concrete registry in which no unit string parses, instantiating the
warning path of `unit_convert`. -/
def uregNone : Option String → UnitRegistry ℚ :=
  fun _ =>
    { defined := fun _ => false
      to_base_units := fun u x => (x, u)
      convert_to := fun _ t x => (x, t)
      add_atm := fun _ a y => y + a }

/-- One psi in pascal, exactly, as the pint default registry defines it:
psi = pound-force / inch^2, pound-force = 0.45359237 kg * 9.80665 m/s^2,
inch = 0.0254 m, hence psi = 4.4482216152605 / 0.00064516 Pa. -/
def psi_in_pascal : ℚ := 44482216152605 / 6451600000

/-- One standard atmosphere in pascal, exactly, as pint defines it. -/
def atm_in_pascal : ℚ := 101325

/-- A concrete registry faithful to pint's default SI base-unit conversions
for the pressure units `unit_convert` touches on the gauge-pressure path:
psi and atm convert to pascal with their exact pint magnitudes, and
quantity addition of atmospheres onto a pascal quantity adds the exact
pascal equivalent. -/
def uregSI : Option String → UnitRegistry ℚ :=
  fun _ =>
    { defined := fun u => u == "psi" || u == "atm" || u == "pascal"
      to_base_units := fun u x =>
        if u = "psi" then (x * psi_in_pascal, "pascal")
        else if u = "atm" then (x * atm_in_pascal, "pascal")
        else (x, u)
      convert_to := fun _ t x => (x, t)
      add_atm := fun u a y =>
        if u = "pascal" then y + a * atm_in_pascal else y }

/-- A concrete component object for instantiating the Henry's-law
statements: no components yet, Henry reference coefficient 2 in every
phase. -/
def cobjW : CompObj ℚ :=
  { components := fun _ => none
    henry_ref := fun _ => 2 }

/-- A concrete block whose every component object is `cobjW` after
`ConstantH.build_parameters cobjW "Liq"` ran. -/
def bW : Block ℚ :=
  { params_get_component := fun _ => ConstantH.build_parameters cobjW "Liq" }

/-! ## Helper lemmas -/

theorem lookup_cons {β : Type} (k : String) (p : String × β)
    (rest : List (String × β)) :
    List.lookup k (p :: rest) = if k = p.1 then some p.2 else List.lookup k rest := by
  by_cases h : k = p.1
  · simp [List.lookup, h]
  · have hb : (k == p.1) = false := by simpa using h
    simp [List.lookup, hb, h]

theorem dictInsert_lookup_self {β : Type} (k : String) (v : β)
    (md : List (String × β)) : (dictInsert k v md).lookup k = some v := by
  induction md with
  | nil => simp [dictInsert, lookup_cons]
  | cons p rest ih =>
    by_cases h : p.1 = k
    · simp [dictInsert, h, lookup_cons]
    · simp [dictInsert, h, lookup_cons, Ne.symm h, ih]

theorem dictInsert_lookup_ne {β : Type} (k k' : String) (v : β)
    (md : List (String × β)) (h : k' ≠ k) :
    (dictInsert k v md).lookup k' = md.lookup k' := by
  induction md with
  | nil =>
    show List.lookup k' [(k, v)] = List.lookup k' []
    rw [lookup_cons, if_neg h]
  | cons p rest ih =>
    by_cases hp : p.1 = k
    · subst hp
      simp [dictInsert, lookup_cons, h]
    · simp only [dictInsert, hp, if_false]
      rw [lookup_cons, lookup_cons, ih]


theorem dictInsert_lookup_isSome {β : Type} (k k' : String) (v : β)
    (md : List (String × β)) :
    ((dictInsert k v md).lookup k').isSome = true ↔
      k' = k ∨ (md.lookup k').isSome = true := by
  by_cases h : k' = k
  · subst h
    simp [dictInsert_lookup_self]
  · simp [dictInsert_lookup_ne k k' v md h, h]

theorem lookup_map_value {β γ : Type} (f : β → γ) (md : List (String × β))
    (k : String) :
    (md.map (fun p => (p.1, f p.2))).lookup k = (md.lookup k).map f := by
  induction md with
  | nil => simp [List.lookup]
  | cons p rest ih =>
    by_cases h : k = p.1
    · simp [lookup_cons, h]
    · simp [lookup_cons, h, ih]

/-! ## Claim theorems: unit_convert and ConstantH -/

/-- C10: after `ConstantH.build_parameters cobj p` has added the Henry
coefficient variable for phase `p`, `ConstantH.return_expression b p j T`
returns exactly that variable for every value of the temperature argument
`T`, including `T = none`: the returned Henry's-law expression is
independent of temperature. -/
theorem constantH_return_expression_temperature_independent {α : Type}
    (b : Block α) (cobj : CompObj α) (p j : String) (T T' : Option ℚ)
    (hb : b.params_get_component j = ConstantH.build_parameters cobj p) :
    ConstantH.return_expression b p j T =
      some { initval := cobj.henry_ref p
             doc := "Henry coefficient (mole fraction basis) at reference " ++
               "state for phase " ++ p } ∧
    ConstantH.return_expression b p j T = ConstantH.return_expression b p j T' := by
  refine ⟨?_, rfl⟩
  simp [ConstantH.return_expression, hb, ConstantH.build_parameters,
    add_component]

/-- Witness for C10 at a concrete block, phase and component, with the
temperature both absent and present. -/
theorem constantH_return_expression_temperature_independent_witness :
    bW.params_get_component "CO2" = ConstantH.build_parameters cobjW "Liq" ∧
    ConstantH.return_expression bW "Liq" "CO2" none =
      some { initval := cobjW.henry_ref "Liq"
             doc := "Henry coefficient (mole fraction basis) at reference " ++
               "state for phase " ++ "Liq" } ∧
    ConstantH.return_expression bW "Liq" "CO2" none =
      ConstantH.return_expression bW "Liq" "CO2" (some 300) :=
  ⟨rfl,
   (constantH_return_expression_temperature_independent bW cobjW "Liq" "CO2"
      none (some 300) rfl).1,
   (constantH_return_expression_temperature_independent bW cobjW "Liq" "CO2"
      none (some 300) rfl).2⟩

/-- C5: for every unit string whose resolved form (after alias resolution
and gauge substitution, data.py lines 165-176) lies in the pass-through set,
caller-supplied or built-in, `unit_convert` returns the input value
unchanged and the resolved string as the unit label, regardless of the
requested target unit or system. -/
theorem unit_convert_pass_through {α : Type}
    (ureg_of : Option String → UnitRegistry α) (x : α) (frm : String)
    (to_unit system : Option String) (usm : List (String × String))
    (ign : List String) (gp : List (String × String)) (atm : ℚ)
    (hig : (_ignore_units.contains
          (resolve_guage gp (resolve_unit_string usm frm)).2
        || ign.contains (resolve_guage gp (resolve_unit_string usm frm)).2)
        = true) :
    unit_convert ureg_of x frm to_unit system usm ign gp atm
      = (x, (resolve_guage gp (resolve_unit_string usm frm)).2) := by
  simp at hig
  rcases hig with h | h <;> simp [unit_convert, unit_convert_core, h]

/-- Witness for C5: "PCT" resolves to "percent", which is in the built-in
pass-through set, so the value 5 comes back unchanged even though a target
unit and a target system are both requested. -/
theorem unit_convert_pass_through_witness :
    ((_ignore_units.contains (resolve_guage [] (resolve_unit_string [] "PCT")).2
        || List.contains ([] : List String)
             (resolve_guage [] (resolve_unit_string [] "PCT")).2) = true) ∧
    unit_convert uregConst (5:ℚ) "PCT" (some "dimensionless") (some "mks")
        [] [] [] 1
      = ((5:ℚ), (resolve_guage [] (resolve_unit_string [] "PCT")).2) :=
  ⟨by decide,
   unit_convert_pass_through uregConst 5 "PCT" (some "dimensionless")
     (some "mks") [] [] [] 1 (by decide)⟩

/-- C2: for every source unit string whose resolved form the registry cannot
parse (and which is not in a pass-through set), `unit_convert` returns the
original value unchanged together with the resolved unit string as the
label, and the warning of data.py lines 184-185 fires; the embedding is a
total function, so no exception is ever raised on this path. -/
theorem unit_convert_undefined_warns {α : Type}
    (ureg_of : Option String → UnitRegistry α) (x : α) (frm : String)
    (to_unit system : Option String) (usm : List (String × String))
    (ign : List String) (gp : List (String × String)) (atm : ℚ)
    (hig : (_ignore_units.contains
          (resolve_guage gp (resolve_unit_string usm frm)).2
        || ign.contains (resolve_guage gp (resolve_unit_string usm frm)).2)
        = false)
    (hdef : (ureg_of system).defined
        (resolve_guage gp (resolve_unit_string usm frm)).2 = false) :
    unit_convert ureg_of x frm to_unit system usm ign gp atm
      = (x, (resolve_guage gp (resolve_unit_string usm frm)).2)
    ∧ unit_convert_warned ureg_of frm system usm ign gp = true := by
  simp at hig
  constructor
  · simp [unit_convert, unit_convert_core, hig.1, hig.2, hdef]
  · simp [unit_convert_warned, hig.1, hig.2, hdef]

/-- Witness for C2: "NOTAUNIT" resolves to itself and the all-refusing
registry cannot parse it, so the value 7 comes back unchanged with the
warning flag set. -/
theorem unit_convert_undefined_warns_witness :
    ((_ignore_units.contains
          (resolve_guage [] (resolve_unit_string [] "NOTAUNIT")).2
        || List.contains ([] : List String)
             (resolve_guage [] (resolve_unit_string [] "NOTAUNIT")).2) = false) ∧
    (uregNone none).defined
        (resolve_guage [] (resolve_unit_string [] "NOTAUNIT")).2 = false ∧
    (unit_convert uregNone (7:ℚ) "NOTAUNIT" none none [] [] [] 1
        = ((7:ℚ), (resolve_guage [] (resolve_unit_string [] "NOTAUNIT")).2)
      ∧ unit_convert_warned uregNone "NOTAUNIT" none [] [] [] = true) :=
  ⟨by decide, by decide,
   unit_convert_undefined_warns uregNone 7 "NOTAUNIT" none none [] [] [] 1
     (by decide) (by decide)⟩

/-- C9: the source unit string is resolved by consulting, in order, the
caller-supplied override mapping, then the built-in alias table, else left
unchanged; `unit_convert` factors through this resolution, so library
parsing is only ever attempted on the resolved string; in particular every
key of the built-in alias table not overridden by the caller resolves to its
mapped canonical string. -/
theorem unit_convert_alias_resolution :
    (∀ (usm : List (String × String)) (k v : String),
        usm.lookup k = some v → resolve_unit_string usm k = v)
    ∧ (∀ (usm : List (String × String)) (k v : String),
        usm.lookup k = none → _unit_strings.lookup k = some v →
          resolve_unit_string usm k = v)
    ∧ (∀ (usm : List (String × String)) (k : String),
        usm.lookup k = none → _unit_strings.lookup k = none →
          resolve_unit_string usm k = k)
    ∧ (∀ (α : Type) (ureg_of : Option String → UnitRegistry α) (x : α)
        (frm : String) (to_unit system : Option String)
        (usm : List (String × String)) (ign : List String)
        (gp : List (String × String)) (atm : ℚ),
        unit_convert ureg_of x frm to_unit system usm ign gp atm
          = unit_convert_core (ureg_of system) x
              (resolve_unit_string usm frm) to_unit ign gp atm) := by
  refine ⟨?_, ?_, ?_, ?_⟩
  · intro usm k v h
    simp [resolve_unit_string, h]
  · intro usm k v h1 h2
    simp [resolve_unit_string, h1, h2]
  · intro usm k h1 h2
    simp [resolve_unit_string, h1, h2]
  · intro α ureg_of x frm t s usm ign gp atm
    rfl

/-- Witness for C9: the built-in key "PSIG" resolves to "psig" when not
overridden, and to the caller's "bar" when the caller overrides it. -/
theorem unit_convert_alias_resolution_witness :
    _unit_strings.lookup "PSIG" = some "psig"
    ∧ resolve_unit_string [] "PSIG" = "psig"
    ∧ List.lookup "PSIG" [("PSIG", "bar")] = some "bar"
    ∧ resolve_unit_string [("PSIG", "bar")] "PSIG" = "bar" :=
  ⟨by decide,
   unit_convert_alias_resolution.2.1 [] "PSIG" "psig" (by decide) (by decide),
   by decide,
   unit_convert_alias_resolution.1 [("PSIG", "bar")] "PSIG" "bar" (by decide)⟩

/-- C1 (amended): for every gauge-pressure source unit, `unit_convert`
returns the conversion of the corresponding absolute-pressure unit plus the
atmospheric offset — the caller-suppliable `atm`, default 1.0, counted in
atmosphere units and added as `atm * (1 atm)` expressed in the converted
units.  In particular converting 10 "psig" equals converting 10 "psi" plus
one atmosphere in the target units, which is not the conversion of
11 "psi" (one atmosphere is about 14.696 psi, not 1 psi); see the
counterexample theorem. -/
theorem unit_convert_guage_offset {α : Type}
    (ureg_of : Option String → UnitRegistry α) (x : α) (frm a : String)
    (to_unit system : Option String) (usm : List (String × String))
    (ign : List String) (gp : List (String × String)) (atm : ℚ)
    (hg : resolve_guage gp (resolve_unit_string usm frm) = (true, a))
    (ha1 : resolve_unit_string usm a = a)
    (ha2 : resolve_guage gp a = (false, a))
    (hig : (_ignore_units.contains a || ign.contains a) = false)
    (hdef : (ureg_of system).defined a = true) :
    unit_convert ureg_of x frm to_unit system usm ign gp atm
      = ((ureg_of system).add_atm
           (unit_convert ureg_of x a to_unit system usm ign gp atm).2 atm
           (unit_convert ureg_of x a to_unit system usm ign gp atm).1,
         (unit_convert ureg_of x a to_unit system usm ign gp atm).2) := by
  simp at hig
  cases to_unit <;>
    simp [unit_convert, unit_convert_core, hg, ha1, ha2, hig.1, hig.2, hdef]

/-- Witness for C1 (amended) at 10 "psig" with the pint-faithful registry:
the result is the conversion of 10 "psi" plus one atmosphere in the target
units. -/
theorem unit_convert_guage_offset_witness :
    resolve_guage [] (resolve_unit_string [] "psig") = (true, "psi")
    ∧ resolve_unit_string [] "psi" = "psi"
    ∧ resolve_guage [] "psi" = (false, "psi")
    ∧ (_ignore_units.contains "psi" || List.contains ([] : List String) "psi")
        = false
    ∧ (uregSI none).defined "psi" = true
    ∧ unit_convert uregSI (10:ℚ) "psig" none none [] [] [] 1
      = ((uregSI none).add_atm
           (unit_convert uregSI (10:ℚ) "psi" none none [] [] [] 1).2 1
           (unit_convert uregSI (10:ℚ) "psi" none none [] [] [] 1).1,
         (unit_convert uregSI (10:ℚ) "psi" none none [] [] [] 1).2) :=
  ⟨by decide, by decide, by decide, by decide, by decide,
   unit_convert_guage_offset uregSI 10 "psig" "psi" none none [] [] [] 1
     (by decide) (by decide) (by decide) (by decide) (by decide)⟩

/-- C1 counterexample: with the registry faithful to pint's default
magnitudes for psi and atm, converting 10 "psig" does not equal converting
11 "psi" — the code adds one full atmosphere (about 14.696 psi, 101325 Pa),
not one psi, so the magnitudes differ by far more than any conversion
precision (about 170272.57 Pa versus about 75842.34 Pa). -/
theorem unit_convert_psig_example_counterexample :
    (unit_convert uregSI (10:ℚ) "psig" none none [] [] [] 1).1
      ≠ (unit_convert uregSI (11:ℚ) "psi" none none [] [] [] 1).1 := by
  have h1 : resolve_guage [] (resolve_unit_string [] "psig") = (true, "psi") :=
    by decide
  have h2 : resolve_unit_string [] "psi" = "psi" := by decide
  have h3 : resolve_guage [] "psi" = (false, "psi") := by decide
  simp [unit_convert, unit_convert_core, h1, h2, h3, _ignore_units, uregSI,
    psi_in_pascal, atm_in_pascal]
  norm_num

/-! ## Helper lemmas for read_data -/

theorem read_data_none_eq {ρ : Type}
    (ureg_of : Option String → UnitRegistry (List ℚ))
    (csv_file : List (String × List ℚ))
    (mdf : Option (List MetaLine)) (model : Option (String → Option ρ))
    (rm : Option (String → String)) :
    read_data ureg_of csv_file mdf model rm none
      = (drop_no_metadata (metadata_of mdf model rm)
           (rename_columns rm (strip_columns (drop_unnamed csv_file))),
         metadata_of mdf model rm) := rfl

theorem read_data_some_eq {ρ : Type}
    (ureg_of : Option String → UnitRegistry (List ℚ))
    (csv_file : List (String × List ℚ))
    (mdf : Option (List MetaLine)) (model : Option (String → Option ρ))
    (rm : Option (String → String)) (s : String) :
    read_data ureg_of csv_file mdf model rm (some s)
      = convert_columns ureg_of s
          (read_data ureg_of csv_file mdf model rm none).1
          (read_data ureg_of csv_file mdf model rm none).2 := rfl

theorem drop_no_metadata_mem {ρ : Type} (md : List (String × TagMeta ρ))
    (df : List (String × List ℚ)) (t : String)
    (h : t ∈ (drop_no_metadata md df).map Prod.fst) :
    (md.lookup t).isSome = true := by
  rcases List.mem_map.mp h with ⟨c, hc, rfl⟩
  simpa using (List.mem_filter.mp hc).2

theorem convert_columns_map_fst {ρ : Type}
    (ureg_of : Option String → UnitRegistry (List ℚ)) (s : String)
    (df : List (String × List ℚ)) (md : List (String × TagMeta ρ)) :
    ((convert_columns ureg_of s df md).1).map Prod.fst = df.map Prod.fst := by
  induction df generalizing md with
  | nil => rfl
  | cons c rest ih =>
    cases h : md.lookup c.1 with
    | some m => simp [convert_columns, h, ih]
    | none => simp [convert_columns, h, ih]

theorem convert_columns_lookup_isSome {ρ : Type}
    (ureg_of : Option String → UnitRegistry (List ℚ)) (s : String)
    (df : List (String × List ℚ)) (md : List (String × TagMeta ρ)) (k : String)
    (h : (md.lookup k).isSome = true) :
    (((convert_columns ureg_of s df md).2).lookup k).isSome = true := by
  induction df generalizing md with
  | nil => simpa [convert_columns] using h
  | cons c rest ih =>
    cases hm : md.lookup c.1 with
    | some m =>
      simp only [convert_columns, hm]
      exact ih _ ((dictInsert_lookup_isSome _ _ _ _).mpr (Or.inr h))
    | none =>
      simp only [convert_columns, hm]
      exact ih _ h

theorem convert_columns_lookup_not_mem {ρ : Type}
    (ureg_of : Option String → UnitRegistry (List ℚ)) (s : String)
    (df : List (String × List ℚ)) (md : List (String × TagMeta ρ)) (k : String)
    (h : k ∉ df.map Prod.fst) :
    ((convert_columns ureg_of s df md).2).lookup k = md.lookup k := by
  induction df generalizing md with
  | nil => rfl
  | cons c rest ih =>
    simp only [List.map_cons, List.mem_cons, not_or] at h
    cases hm : md.lookup c.1 with
    | some m =>
      simp only [convert_columns, hm]
      rw [ih _ h.2, dictInsert_lookup_ne _ _ _ _ h.1]
    | none =>
      simp only [convert_columns, hm]
      exact ih _ h.2

theorem convert_columns_spec {ρ : Type}
    (ureg_of : Option String → UnitRegistry (List ℚ)) (s : String)
    (df : List (String × List ℚ)) (md : List (String × TagMeta ρ))
    (t : String) (v : List ℚ) (m : TagMeta ρ) :
    (df.map Prod.fst).Nodup → (t, v) ∈ df → md.lookup t = some m →
    ((t, (unit_convert ureg_of v m.units none (some s) [] [] [] 1).1)
        ∈ (convert_columns ureg_of s df md).1)
    ∧ ((convert_columns ureg_of s df md).2).lookup t
        = some { m with
            units := (unit_convert ureg_of v m.units none (some s) [] [] [] 1).2 } := by
  induction df generalizing md with
  | nil => intro _ hc _; cases hc
  | cons c rest ih =>
    intro hnd hc hm
    have hnd' : (rest.map Prod.fst).Nodup :=
      (List.nodup_cons.mp (by simpa using hnd)).2
    have hcfst : c.1 ∉ rest.map Prod.fst :=
      (List.nodup_cons.mp (by simpa using hnd)).1
    rcases List.mem_cons.mp hc with heq | hrest
    · have hceq : c = (t, v) := heq.symm
      subst hceq
      simp only [convert_columns, hm]
      constructor
      · exact List.mem_cons_self _ _
      · rw [convert_columns_lookup_not_mem _ _ _ _ _ hcfst]
        exact dictInsert_lookup_self _ _ _
    · have htfst : t ∈ rest.map Prod.fst :=
        List.mem_map.mpr ⟨(t, v), hrest, rfl⟩
      have ht : t ≠ c.1 := fun hteq => hcfst (hteq ▸ htfst)
      cases hmc : md.lookup c.1 with
      | some m' =>
        simp only [convert_columns, hmc]
        have hm' : (dictInsert c.1
            { m' with units := (unit_convert ureg_of c.2 m'.units none
                (some s) [] [] [] 1).2 } md).lookup t = some m := by
          rw [dictInsert_lookup_ne _ _ _ _ ht]
          exact hm
        refine ⟨List.mem_cons_of_mem _ (ih _ hnd' hrest hm').1,
          (ih _ hnd' hrest hm').2⟩
      | none =>
        simp only [convert_columns, hmc]
        refine ⟨List.mem_cons_of_mem _ (ih _ hnd' hrest hm).1,
          (ih _ hnd' hrest hm).2⟩

theorem build_metadata_loop_lookup_isSome {ρ : Type}
    (rm : Option (String → String)) (lines : List MetaLine)
    (md : List (String × TagMeta ρ)) (k : String) :
    (((build_metadata_loop rm lines md).lookup k).isSome = true)
      ↔ (∃ line ∈ lines, applyRename rm (pyStrip line.tag) = k)
        ∨ (md.lookup k).isSome = true := by
  induction lines generalizing md with
  | nil => simp [build_metadata_loop]
  | cons line rest ih =>
    simp only [build_metadata_loop]
    rw [ih, dictInsert_lookup_isSome]
    simp only [List.mem_cons]
    constructor
    · rintro (⟨l, hl, hk⟩ | hk | hmd)
      · exact Or.inl ⟨l, Or.inr hl, hk⟩
      · exact Or.inl ⟨line, Or.inl rfl, hk.symm⟩
      · exact Or.inr hmd
    · rintro (⟨l, hl | hl, hk⟩ | hmd)
      · subst hl
        exact Or.inr (Or.inl hk.symm)
      · exact Or.inl ⟨l, hl, hk⟩
      · exact Or.inr (Or.inr hmd)

theorem map_references_lookup {ρ : Type} (resolve : String → Option ρ)
    (md : List (String × TagMeta ρ)) (k : String) :
    (map_references resolve md).lookup k
      = (md.lookup k).map (fun m =>
          if m.reference_string = "" then m
          else { m with reference := resolve m.reference_string }) := by
  unfold map_references
  exact lookup_map_value
    (fun m => if m.reference_string = "" then m
      else { m with reference := resolve m.reference_string }) md k

theorem metadata_of_lookup_isSome {ρ : Type} (mdf : Option (List MetaLine))
    (model : Option (String → Option ρ)) (rm : Option (String → String))
    (k : String) :
    (((metadata_of mdf model rm).lookup k).isSome = true)
      ↔ ∃ lines, mdf = some lines
          ∧ ∃ line ∈ lines, applyRename rm (pyStrip line.tag) = k := by
  cases mdf with
  | none =>
    cases model <;> simp [metadata_of, map_references, List.lookup]
  | some lines =>
    have hbase : (((build_metadata (ρ := ρ) rm lines).lookup k).isSome = true)
        ↔ ∃ line ∈ lines, applyRename rm (pyStrip line.tag) = k := by
      unfold build_metadata
      rw [build_metadata_loop_lookup_isSome]
      simp [List.lookup]
    cases model with
    | none =>
      simpa [metadata_of] using hbase
    | some r =>
      simp only [metadata_of, map_references_lookup, Option.isSome_map]
      simpa using hbase

/-! ## Claim theorems: read_data -/

/-- C8: when `read_data` is called with an empty or absent metadata file
path (the falsy branch of data.py line 233), the returned metadata mapping
is empty, and consequently every data column is dropped, leaving a
Measurement Table with no columns. -/
theorem read_data_empty_metadata {ρ : Type}
    (ureg_of : Option String → UnitRegistry (List ℚ))
    (csv_file : List (String × List ℚ)) (model : Option (String → Option ρ))
    (rm : Option (String → String)) (us : Option String) :
    read_data ureg_of csv_file none model rm us = ([], []) := by
  have hmd : metadata_of (ρ := ρ) none model rm = [] := by
    cases model <;> rfl
  cases us with
  | none =>
    rw [read_data_none_eq, hmd]
    simp [drop_no_metadata, List.lookup]
  | some s =>
    rw [read_data_some_eq, read_data_none_eq, hmd]
    simp [drop_no_metadata, List.lookup, convert_columns]

/-- C3: every tag present in the Measurement Table returned by `read_data`
has an entry in the returned metadata mapping, and every data column whose
tag has no metadata entry is dropped: with data columns A, B, C and
metadata only for A and C, the result has exactly columns A and C. -/
theorem read_data_metadata_invariant :
    (∀ (ρ : Type) (ureg_of : Option String → UnitRegistry (List ℚ))
        (csv_file : List (String × List ℚ)) (mdf : Option (List MetaLine))
        (model : Option (String → Option ρ)) (rm : Option (String → String))
        (us : Option String) (t : String),
        t ∈ ((read_data ureg_of csv_file mdf model rm us).1).map Prod.fst →
        (((read_data ureg_of csv_file mdf model rm us).2).lookup t).isSome
          = true)
    ∧ ((read_data (ρ := Nat) uregConstL
          [("A", [1]), ("B", [2]), ("C", [3])]
          (some [⟨"A", "", "", "kg"⟩, ⟨"C", "", "", "m"⟩])
          none none none).1).map Prod.fst = ["A", "C"] := by
  constructor
  · intro ρ ureg_of csv_file mdf model rm us t ht
    cases us with
    | none =>
      rw [read_data_none_eq] at ht ⊢
      exact drop_no_metadata_mem _ _ _ ht
    | some s =>
      rw [read_data_some_eq] at ht ⊢
      rw [convert_columns_map_fst] at ht
      apply convert_columns_lookup_isSome
      rw [read_data_none_eq] at ht ⊢
      exact drop_no_metadata_mem _ _ _ ht
  · decide

/-- Witness for C3 at the concrete three-column instance: the tag "A" is in
the result and has a metadata entry. -/
theorem read_data_metadata_invariant_witness :
    "A" ∈ ((read_data (ρ := Nat) uregConstL
        [("A", [1]), ("B", [2]), ("C", [3])]
        (some [⟨"A", "", "", "kg"⟩, ⟨"C", "", "", "m"⟩])
        none none none).1).map Prod.fst
    ∧ (((read_data (ρ := Nat) uregConstL
        [("A", [1]), ("B", [2]), ("C", [3])]
        (some [⟨"A", "", "", "kg"⟩, ⟨"C", "", "", "m"⟩])
        none none none).2).lookup "A").isSome = true :=
  ⟨by decide,
   read_data_metadata_invariant.1 Nat uregConstL
     [("A", [1]), ("B", [2]), ("C", [3])]
     (some [⟨"A", "", "", "kg"⟩, ⟨"C", "", "", "m"⟩])
     none none none "A" (by decide)⟩

/-- C6: `read_data` trims whitespace from every tag name read from the data
file and from the metadata file before matching, and a supplied renaming
function is applied identically to tags from both files after trimming: any
data column and metadata line whose trimmed-and-renamed tags agree are
matched, so the column survives into the result (in particular a column
" A " matches a metadata row "A", with or without renaming). -/
theorem read_data_tag_matching {ρ : Type}
    (ureg_of : Option String → UnitRegistry (List ℚ))
    (csv_file : List (String × List ℚ)) (lines : List MetaLine)
    (model : Option (String → Option ρ)) (rm : Option (String → String))
    (us : Option String) (s : String) (v : List ℚ) (line : MetaLine)
    (hc : (s, v) ∈ csv_file) (hu : containsStr s "Unnamed" = false)
    (hl : line ∈ lines)
    (hmatch : applyRename rm (pyStrip line.tag) = applyRename rm (pyStrip s)) :
    applyRename rm (pyStrip s)
      ∈ ((read_data ureg_of csv_file (some lines) model rm us).1).map
          Prod.fst := by
  have h1 : (s, v) ∈ drop_unnamed csv_file :=
    List.mem_filter.mpr ⟨hc, by simp [hu]⟩
  have h2 : (pyStrip s, v) ∈ strip_columns (drop_unnamed csv_file) :=
    List.mem_map.mpr ⟨(s, v), h1, rfl⟩
  have h3 : (applyRename rm (pyStrip s), v)
      ∈ rename_columns rm (strip_columns (drop_unnamed csv_file)) := by
    cases rm with
    | none => simpa [rename_columns, applyRename] using h2
    | some f => exact List.mem_map.mpr ⟨(pyStrip s, v), h2, rfl⟩
  have hmd : ((metadata_of (some lines) model rm).lookup
      (applyRename rm (pyStrip s))).isSome = true :=
    (metadata_of_lookup_isSome _ _ _ _).mpr ⟨lines, rfl, line, hl, hmatch⟩
  have h4 : (applyRename rm (pyStrip s), v)
      ∈ drop_no_metadata (metadata_of (some lines) model rm)
          (rename_columns rm (strip_columns (drop_unnamed csv_file))) :=
    List.mem_filter.mpr ⟨h3, by simpa using hmd⟩
  cases us with
  | none =>
    rw [read_data_none_eq]
    exact List.mem_map.mpr ⟨_, h4, rfl⟩
  | some s' =>
    rw [read_data_some_eq, convert_columns_map_fst, read_data_none_eq]
    exact List.mem_map.mpr ⟨_, h4, rfl⟩

/-- Witness for C6: the data column " A " matches the metadata row "A"
under a renaming that appends an exclamation mark to each trimmed tag. -/
theorem read_data_tag_matching_witness :
    ((" A ", ([1] : List ℚ)) ∈ [(" A ", ([1] : List ℚ))])
    ∧ containsStr " A " "Unnamed" = false
    ∧ ((⟨"A", "", "", "kg"⟩ : MetaLine) ∈ [(⟨"A", "", "", "kg"⟩ : MetaLine)])
    ∧ applyRename (some (fun t => t ++ "!"))
        (pyStrip (MetaLine.tag ⟨"A", "", "", "kg"⟩))
        = applyRename (some (fun t => t ++ "!")) (pyStrip " A ")
    ∧ applyRename (some (fun t => t ++ "!")) (pyStrip " A ")
        ∈ ((read_data (ρ := Nat) uregConstL [(" A ", [1])]
              (some [⟨"A", "", "", "kg"⟩]) none (some (fun t => t ++ "!"))
              none).1).map Prod.fst :=
  ⟨by decide, by decide, by decide, by decide,
   read_data_tag_matching uregConstL [(" A ", [1])] [⟨"A", "", "", "kg"⟩]
     none (some (fun t => t ++ "!")) none " A " [1] ⟨"A", "", "", "kg"⟩
     (by decide) (by decide) (by decide) (by decide)⟩

/-- C4: when `read_data` is called with a unit system then, the surviving
column tags being distinct (as pandas column labels are), every surviving
column's values are replaced by `unit_convert`'s converted output for the
column's original metadata units and the requested system, and that
column's metadata units field becomes the unit string `unit_convert`
returned. -/
theorem read_data_unit_system_conversion {ρ : Type}
    (ureg_of : Option String → UnitRegistry (List ℚ))
    (csv_file : List (String × List ℚ)) (mdf : Option (List MetaLine))
    (model : Option (String → Option ρ)) (rm : Option (String → String))
    (s : String) (t : String) (v : List ℚ) (m : TagMeta ρ)
    (hnd : (((read_data ureg_of csv_file mdf model rm none).1).map
        Prod.fst).Nodup)
    (hc : (t, v) ∈ (read_data ureg_of csv_file mdf model rm none).1)
    (hm : ((read_data ureg_of csv_file mdf model rm none).2).lookup t
        = some m) :
    ((t, (unit_convert ureg_of v m.units none (some s) [] [] [] 1).1)
        ∈ (read_data ureg_of csv_file mdf model rm (some s)).1)
    ∧ ((read_data ureg_of csv_file mdf model rm (some s)).2).lookup t
        = some { m with
            units := (unit_convert ureg_of v m.units none (some s)
              [] [] [] 1).2 } := by
  rw [read_data_some_eq]
  exact convert_columns_spec ureg_of s _ _ t v m hnd hc hm

/-- Witness for C4: one column "A" with original units "psia" converted to
the "mks" system through the trivial registry. -/
theorem read_data_unit_system_conversion_witness :
    ((((read_data (ρ := Nat) uregConstL [("A", [2])]
          (some [⟨"A", "", "", "psia"⟩]) none none none).1).map
        Prod.fst).Nodup)
    ∧ (("A", ([2] : List ℚ))
        ∈ (read_data (ρ := Nat) uregConstL [("A", [2])]
            (some [⟨"A", "", "", "psia"⟩]) none none none).1)
    ∧ (((read_data (ρ := Nat) uregConstL [("A", [2])]
          (some [⟨"A", "", "", "psia"⟩]) none none none).2).lookup "A"
        = some ⟨"", none, "", "psia"⟩)
    ∧ (("A", (unit_convert uregConstL [2] "psia" none (some "mks")
          [] [] [] 1).1)
        ∈ (read_data (ρ := Nat) uregConstL [("A", [2])]
            (some [⟨"A", "", "", "psia"⟩]) none none (some "mks")).1)
    ∧ (((read_data (ρ := Nat) uregConstL [("A", [2])]
          (some [⟨"A", "", "", "psia"⟩]) none none (some "mks")).2).lookup "A"
        = some { (⟨"", none, "", "psia"⟩ : TagMeta Nat) with
            units := (unit_convert uregConstL [2] "psia" none (some "mks")
              [] [] [] 1).2 }) :=
  ⟨by decide, by decide, by decide,
   (read_data_unit_system_conversion uregConstL [("A", [2])]
      (some [⟨"A", "", "", "psia"⟩]) none none "mks" "A" [2]
      ⟨"", none, "", "psia"⟩ (by decide) (by decide) (by decide)).1,
   (read_data_unit_system_conversion uregConstL [("A", [2])]
      (some [⟨"A", "", "", "psia"⟩]) none none "mks" "A" [2]
      ⟨"", none, "", "psia"⟩ (by decide) (by decide) (by decide)).2⟩

theorem reference_warnings_mem {ρ : Type} (r : String → Option ρ)
    (md : List (String × TagMeta ρ)) (q : String) :
    q ∈ reference_warnings r md
      ↔ ∃ p, p ∈ md ∧ p.2.reference_string = q ∧ q ≠ "" ∧ r q = none := by
  induction md with
  | nil => simp [reference_warnings]
  | cons p rest ih =>
    by_cases he : p.2.reference_string = ""
    · rw [reference_warnings, if_pos he, ih]
      constructor
      · rintro ⟨x, hx, hrest⟩
        exact ⟨x, List.mem_cons_of_mem _ hx, hrest⟩
      · rintro ⟨x, hx, hrs, hq, hr⟩
        rcases List.mem_cons.mp hx with rfl | hx'
        · exact absurd (hrs ▸ he) hq
        · exact ⟨x, hx', hrs, hq, hr⟩
    · cases hr : r p.2.reference_string with
      | some w =>
        rw [reference_warnings, if_neg he, hr, ih]
        constructor
        · rintro ⟨x, hx, hrest⟩
          exact ⟨x, List.mem_cons_of_mem _ hx, hrest⟩
        · rintro ⟨x, hx, hrs, hq, hrq⟩
          rcases List.mem_cons.mp hx with rfl | hx'
          · rw [hrs] at hr
            rw [hr] at hrq
            cases hrq
          · exact ⟨x, hx', hrs, hq, hrq⟩
      | none =>
        rw [reference_warnings, if_neg he, hr]
        simp only [List.mem_cons]
        constructor
        · rintro (rfl | hq)
          · exact ⟨p, Or.inl rfl, rfl, he, hr⟩
          · rcases ih.mp hq with ⟨x, hx, hrest⟩
            exact ⟨x, Or.inr hx, hrest⟩
        · rintro ⟨x, hx | hx, hrs, hq, hrq⟩
          · subst hx
            exact Or.inl hrs.symm
          · exact Or.inr (ih.mpr ⟨x, hx, hrs, hq, hrq⟩)

/-- C7: when `read_data` is given a model, the returned metadata is the
pointwise resolution of the model-free metadata: entries with an empty
reference_string are returned untouched and are never submitted to the
resolver, every other entry has the resolver applied to its
reference_string, and all entries are processed.  An entry whose resolution
fails (the catch-all except of data.py lines 252-254) keeps
`reference = none`, and the warning list contains exactly the reference
strings of the non-empty entries whose resolution failed. -/
theorem read_data_reference_resolution {ρ : Type}
    (ureg_of : Option String → UnitRegistry (List ℚ))
    (csv_file : List (String × List ℚ)) (mdf : Option (List MetaLine))
    (rm : Option (String → String)) (r : String → Option ρ) :
    ((read_data ureg_of csv_file mdf (some r) rm none).2
        = ((read_data (ρ := ρ) ureg_of csv_file mdf none rm none).2).map
            (fun p => (p.1, if p.2.reference_string = "" then p.2
                else { p.2 with reference := r p.2.reference_string })))
    ∧ (∀ p, p ∈ (read_data ureg_of csv_file mdf (some r) rm none).2 →
        p.2.reference_string ≠ "" → r p.2.reference_string = none →
        p.2.reference = none)
    ∧ (∀ q, q ∈ reference_warnings r
          ((read_data (ρ := ρ) ureg_of csv_file mdf none rm none).2)
        ↔ ∃ p, p ∈ (read_data (ρ := ρ) ureg_of csv_file mdf none rm none).2
            ∧ p.2.reference_string = q ∧ q ≠ "" ∧ r q = none) := by
  refine ⟨rfl, ?_, ?_⟩
  · intro p hp hne hr
    have hp' : p ∈ ((read_data (ρ := ρ) ureg_of csv_file mdf none rm
        none).2).map (fun p => (p.1, if p.2.reference_string = "" then p.2
          else { p.2 with reference := r p.2.reference_string })) := hp
    rcases List.mem_map.mp hp' with ⟨x, _, rfl⟩
    by_cases hx : x.2.reference_string = ""
    · rw [if_pos hx] at hne hr ⊢
      exact absurd hx hne
    · rw [if_neg hx] at hne hr ⊢
      exact hr
  · intro q
    exact reference_warnings_mem r _ q

/-- Witness for C7: two metadata rows, one with reference string "m.x"
(whose resolution fails under the all-failing resolver) and one with an
empty reference string; the failed entry keeps no reference, and "m.x" is
warned about. -/
theorem read_data_reference_resolution_witness :
    (("A", (⟨"m.x", none, "dA", "kg"⟩ : TagMeta Nat))
        ∈ (read_data (ρ := Nat) uregConstL []
            (some [⟨"A", "m.x", "dA", "kg"⟩, ⟨"B", "", "dB", "m"⟩])
            (some (fun _ => none)) none none).2)
    ∧ (⟨"m.x", none, "dA", "kg"⟩ : TagMeta Nat).reference = none
    ∧ "m.x" ∈ reference_warnings (fun _ => (none : Option Nat))
        ((read_data (ρ := Nat) uregConstL []
            (some [⟨"A", "m.x", "dA", "kg"⟩, ⟨"B", "", "dB", "m"⟩])
            none none none).2) :=
  ⟨by decide,
   (read_data_reference_resolution uregConstL []
      (some [⟨"A", "m.x", "dA", "kg"⟩, ⟨"B", "", "dB", "m"⟩]) none
      (fun _ => (none : Option Nat))).2.1
     ("A", ⟨"m.x", none, "dA", "kg"⟩) (by decide) (by decide) rfl,
   ((read_data_reference_resolution uregConstL []
      (some [⟨"A", "m.x", "dA", "kg"⟩, ⟨"B", "", "dB", "m"⟩]) none
      (fun _ => (none : Option Nat))).2.2 "m.x").mpr
     ⟨("A", ⟨"m.x", none, "dA", "kg"⟩), by decide, rfl, by decide, rfl⟩⟩
